import Mathlib

/-!
Verification development for the UR-NET batch vacancy checker
(`ur_net_batch_property_checker.py`).

The development shallowly embeds the checker's pure logic in Lean.  The
page-rendering engine (Playwright) is an external collaborator: every DOM
query chain of the source is represented by its outcome, supplied as an
oracle input (`PageData`, `RowResult`, `NavOracle`), while all control flow,
record assembly, retry/backoff policy, snapshot-diff logic and
latest-snapshot lookup are translated from the source line by line.

Conventions for translating Python:
* a Python value that may be `None` (or a missing dict key) becomes an
  `Option`; the truthiness test `if x:` on a string option becomes
  `Option.isSome` (caller-supplied field values are modelled as non-empty);
* Python string comparison (used by `max(..., key=...)`) is code-point
  lexicographic; it is embedded as `str_lt` below;
* `dict` accumulators keyed by url become association lists with
  last-write-wins insertion (`dinsert`) and first-match lookup (`dict_get`);
  the iteration order of a Python `set` is implementation defined, the
  embedding fixes key-insertion order (all proved properties are
  order independent);
* file input is external: the outcome of opening and JSON-parsing the prior
  snapshot is an `Except String _` input, and the directory listing seen by
  `glob` is an `Option (List String)` input (`none` = directory absent).
-/

/-! ## Generic helpers -/

/-- Python `pat in s` (substring containment) on lists of characters. -/
def has_sub_list (pat : List Char) : List Char → Bool
  | [] => pat.isEmpty
  | c :: rest => pat.isPrefixOf (c :: rest) || has_sub_list pat rest

/-- Python `pat in s` for strings. -/
def has_sub (s pat : String) : Bool := has_sub_list pat.data s.data

/-- Python string `<` (code-point lexicographic) on the underlying
character lists. -/
def str_lt : List Char → List Char → Bool
  | [], [] => false
  | [], _ :: _ => true
  | _ :: _, [] => false
  | a :: as, b :: bs => if a < b then true else if b < a then false else str_lt as bs

/-- Python `max(x :: l, key := key)`: left fold keeping the first element
whose key is maximal (`max` replaces the current best only on a strictly
greater key). -/
def max_by_key (key : String → String) : String → List String → String
  | x, [] => x
  | x, y :: ys => max_by_key key (if str_lt (key x).data (key y).data then y else x) ys

/-- Python dict lookup `d[k]` / `d.get(k)` on an association list (first
match; `dinsert` keeps keys unique). -/
def dict_get {β : Type} (m : List (String × β)) (k : String) : Option β :=
  match m with
  | [] => none
  | p :: rest => if p.1 = k then some p.2 else dict_get rest k

/-- Python dict assignment `d[k] = v`: replace in place when the key is
present, append otherwise (insertion order preserved). -/
def dinsert {β : Type} (m : List (String × β)) (k : String) (v : β) :
    List (String × β) :=
  if m.any (fun p => decide (p.1 = k)) then
    m.map (fun p => if p.1 = k then (k, v) else p)
  else m ++ [(k, v)]

/-! ## Data model (§3 of the spec, dict shapes of the source) -/

/-- One vacant unit, the `room_info` dict of lines 322–327. -/
structure UnitRecord where
  type : String
  rent : String
  area : String
  floor : String
deriving DecidableEq

/-- Caller-supplied property data (`predefined_info` dict from the CSV
loader); each field is a dict key that may be absent. -/
structure PredefinedInfo where
  name : Option String
  transportation : Option String
  address : Option String
  phone : Option String
  management_years : Option String
deriving DecidableEq

/-- The result dict produced for one target (lines 489–523, 557–573,
593–609).  `property_name` is an `Option` because the failure paths store
`predefined_info.get('name')`, which is Python `None` when the key is
absent. -/
structure PropertyResult where
  url : String
  property_name : Option String
  title : String
  vacant_rooms : List UnitRecord
  total_vacant : Nat
  phone_number : String
  phone_source : String
  transportation : String
  transportation_source : String
  address : String
  address_source : String
  management_years : String
  management_years_source : String
  status : String
  error : Option String
deriving DecidableEq

/-! ## Field extraction (`extract_property_info`, lines 38–523) -/

/-- The detail-link ("詳細") anchor found in a row, if any: its text content
and `href` attribute (each possibly null). -/
structure DetailButton where
  text : Option String
  href : Option String
deriving DecidableEq

/-- Outcome of the per-row selector/regex fallback chains of lines 118–296
for one filtered room row, supplied by the renderer oracle.  `none` models
a chain whose final value is falsy (no selector hit and no regex match on
the row text).  `raises` models the per-row `except` of line 331, which
skips the row. -/
structure RowResult where
  raises : Bool
  room_name : Option String
  rent : Option String
  room_type : Option String
  area : Option String
  floor : Option String
  button : Option DetailButton
deriving DecidableEq

/-- Vacancy classification of one row, lines 301–318: a row is vacant when
its detail anchor has text containing `詳細` or an href containing
`room.html`, or, failing that, when both a rent and a layout were
extracted. -/
def row_is_vacant (r : RowResult) : Bool :=
  let byButton :=
    match r.button with
    | some b =>
        (match b.text with
         | some t => has_sub t "詳細"
         | none => false) ||
        (match b.href with
         | some h => has_sub h "room.html"
         | none => false)
    | none => false
  byButton || (r.rent.isSome && r.room_type.isSome)

/-- Unit-record emission for one row, lines 320–329: append
`{'type': room_type or '不明', 'rent': rent or '不明', 'area': area or
'不明', 'floor': floor or '不明'}` when the row is vacant and both layout
and rent are present; a row whose processing raised is skipped
(line 331). -/
def row_unit (r : RowResult) : Option UnitRecord :=
  if r.raises then none
  else if row_is_vacant r && r.room_type.isSome && r.rent.isSome then
    some { type := r.room_type.getD "不明", rent := r.rent.getD "不明",
           area := r.area.getD "不明", floor := r.floor.getD "不明" }
  else none

/-- Renderer-side outcomes consumed by one call of
`extract_property_info`: the property-name chain of lines 52–70
(`none` = every selector missed and the title fallback was empty), the page
title, the filtered room rows of lines 77–116 with their per-row chain
outcomes, the four scraped-info chains of lines 354–487, and `raises`,
modelling an exception escaping the body into the outer `except` of
line 506 (e.g. `page.title()` at line 492). -/
structure PageData where
  raises : Bool
  nameChain : Option String
  title : String
  rows : List RowResult
  scr_transportation : Option String
  scr_address : Option String
  scr_phone : Option String
  scr_management_years : Option String
deriving DecidableEq

/-- The `except` return of `extract_property_info`, lines 506–523. -/
def extract_failed_result (url : String) (pre : Option PredefinedInfo) :
    PropertyResult :=
  { url := url
    property_name := match pre with
      | some p => p.name
      | none => some "Unknown"
    title := ""
    vacant_rooms := []
    total_vacant := 0
    phone_number := (pre.bind (fun p => p.phone)).getD "未知"
    phone_source := if (pre.bind (fun p => p.phone)).isSome then "预定义" else "未知"
    transportation := (pre.bind (fun p => p.transportation)).getD "未知"
    transportation_source :=
      if (pre.bind (fun p => p.transportation)).isSome then "预定义" else "未知"
    address := (pre.bind (fun p => p.address)).getD "未知"
    address_source := if (pre.bind (fun p => p.address)).isSome then "预定义" else "未知"
    management_years := (pre.bind (fun p => p.management_years)).getD "未知"
    management_years_source :=
      if (pre.bind (fun p => p.management_years)).isSome then "预定义" else "未知"
    status := "failed"
    error := some "Max retries exceeded" }

/-- The success return of `extract_property_info`, lines 489–504.
The four transportation/address/phone/management fields are skipped and
taken verbatim from the caller when all four predefined keys are present
(lines 339–350), otherwise each comes from its scraping chain with `不明`
fallback (lines 354–487). -/
def extract_success_result (page : PageData) (url : String)
    (pre : Option PredefinedInfo) : PropertyResult :=
  let property_name :=
    match page.nameChain with
    | some s => s
    | none => (pre.bind (fun p => p.name)).getD "不明な物件"
  let rooms := page.rows.filterMap row_unit
  let all4 :=
    match pre with
    | some p =>
        p.transportation.isSome && p.address.isSome &&
        p.phone.isSome && p.management_years.isSome
    | none => false
  { url := url
    property_name := some property_name
    title := if (pre.bind (fun p => p.name)).isSome then property_name else page.title
    vacant_rooms := rooms
    total_vacant := rooms.length
    phone_number :=
      if all4 then (pre.bind (fun p => p.phone)).getD "不明"
      else page.scr_phone.getD "不明"
    phone_source :=
      if all4 then "事前定義"
      else if page.scr_phone.isSome then "ウェブページ抓取" else "不明"
    transportation :=
      if all4 then (pre.bind (fun p => p.transportation)).getD "不明"
      else page.scr_transportation.getD "不明"
    transportation_source :=
      if all4 then "事前定義"
      else if page.scr_transportation.isSome then "ウェブページ抓取" else "不明"
    address :=
      if all4 then (pre.bind (fun p => p.address)).getD "不明"
      else page.scr_address.getD "不明"
    address_source :=
      if all4 then "事前定義"
      else if page.scr_address.isSome then "ウェブページ抓取" else "不明"
    management_years :=
      if all4 then (pre.bind (fun p => p.management_years)).getD "不明"
      else page.scr_management_years.getD "不明"
    management_years_source :=
      if all4 then "事前定義"
      else if page.scr_management_years.isSome then "ウェブページ抓取" else "不明"
    status := "success"
    error := none }

/-- `extract_property_info(page, url, predefined_info)`, lines 38–523:
the whole body is wrapped in `try/except`; an escaping exception yields the
failure dict of lines 506–523, otherwise the success dict of
lines 489–504. -/
def extract_property_info (page : PageData) (url : String)
    (pre : Option PredefinedInfo) : PropertyResult :=
  if page.raises then extract_failed_result url pre
  else extract_success_result page url pre

/-! ## Single-target check (`check_single_property`, lines 525–609) -/

/-- Renderer outcomes for one target: whether `browser.new_page()`
succeeds, which navigation attempts succeed (`nav i` = attempt `i`, zero
based), whether the `page.close()` of line 577 succeeds and, when it
raises, whether the retried close of line 588 succeeds, and the page
contents seen by extraction. -/
structure NavOracle where
  new_page_ok : Bool
  nav : Nat → Bool
  close_ok : Bool
  close_retry_ok : Bool
  page : PageData

/-- The failure dict shared by the navigation-failure return
(lines 557–573) and the fall-through return (lines 593–609); the two differ
only in the `error` string. -/
def target_failed_result (url : String) (pre : Option PredefinedInfo)
    (err : String) : PropertyResult :=
  { url := url
    property_name := match pre with
      | some p => p.name
      | none => some "不明な物件"
    title := ""
    vacant_rooms := []
    total_vacant := 0
    phone_number := (pre.bind (fun p => p.phone)).getD "不明"
    phone_source := if (pre.bind (fun p => p.phone)).isSome then "事前定義" else "不明"
    transportation := (pre.bind (fun p => p.transportation)).getD "不明"
    transportation_source :=
      if (pre.bind (fun p => p.transportation)).isSome then "事前定義" else "不明"
    address := (pre.bind (fun p => p.address)).getD "不明"
    address_source := if (pre.bind (fun p => p.address)).isSome then "事前定義" else "不明"
    management_years := (pre.bind (fun p => p.management_years)).getD "不明"
    management_years_source :=
      if (pre.bind (fun p => p.management_years)).isSome then "事前定義" else "不明"
    status := "failed"
    error := some err }

/-- The retry loop of lines 545–573, `for attempt in range(max_retries)`,
run from attempt number `attempt` with `fuel = max_retries - attempt`
iterations remaining.  Returns (navigation succeeded, attempts consumed,
backoff waits performed).  On a failed attempt other than the last the
loop sleeps `2 ^ attempt` (line 554); failure of the last attempt exits
with `false` (the source returns the failure dict there). -/
def nav_loop (nav : Nat → Bool) (max_retries : Nat) :
    Nat → Nat → Bool × Nat × List Nat
  | attempt, 0 => (true, attempt, [])
  | attempt, fuel + 1 =>
    if nav attempt then (true, attempt + 1, [])
    else if attempt + 1 < max_retries then
      let r := nav_loop nav max_retries (attempt + 1) fuel
      (r.1, r.2.1, 2 ^ attempt :: r.2.2)
    else (false, attempt + 1, [])

/-- The retry loop started at attempt 0 (the `for` header of line 545).
With `max_retries = 0` the loop body never runs and control falls through
to extraction, as in the source. -/
def nav_from (nav : Nat → Bool) (max_retries : Nat) : Bool × Nat × List Nat :=
  nav_loop nav max_retries 0 max_retries

/-- Observable outcome of `check_single_property`: the returned dict plus
the resource/retry trace needed by the orchestration properties. -/
structure SingleOutcome where
  result : PropertyResult
  nav_attempts : Nat
  backoff_waits : List Nat
  page_opened : Bool
  page_closed : Bool
deriving DecidableEq

/-- `check_single_property(browser, url, ...)`, lines 525–609.
Paths: `new_page` raising is caught by the outer `except` (the inner
`page.close()` hits an unbound name and is swallowed) and falls through to
the final return; navigation-retry exhaustion returns at line 557 without
any `page.close()`; after extraction the page is closed at line 577 (if
that close raises, the `except` handler retries the close at line 588 and
control falls through); a success result is returned as is, an extraction
failure falls through to the final return of lines 593–609. -/
def check_single_property (o : NavOracle) (max_retries : Nat) (url : String)
    (pre : Option PredefinedInfo) : SingleOutcome :=
  if o.new_page_ok = false then
    { result := target_failed_result url pre "Max retries exceeded"
      nav_attempts := 0, backoff_waits := []
      page_opened := false, page_closed := false }
  else
    let r := nav_from o.nav max_retries
    if r.1 = false then
      { result := target_failed_result url pre "ページ読み込み失敗"
        nav_attempts := r.2.1, backoff_waits := r.2.2
        page_opened := true, page_closed := false }
    else
      let res := extract_property_info o.page url pre
      if o.close_ok = false then
        { result := target_failed_result url pre "Max retries exceeded"
          nav_attempts := r.2.1, backoff_waits := r.2.2
          page_opened := true, page_closed := o.close_retry_ok }
      else if res.status = "success" then
        { result := res
          nav_attempts := r.2.1, backoff_waits := r.2.2
          page_opened := true, page_closed := true }
      else
        { result := target_failed_result url pre "Max retries exceeded"
          nav_attempts := r.2.1, backoff_waits := r.2.2
          page_opened := true, page_closed := true }

/-! ## Batch orchestration (`check_properties`, lines 611–656) -/

/-- One element of `url_data`: either a dict (CSV input; the whole dict is
passed as `predefined_info`, the url is `item.get('url', '')`) or a
`(url, name)` tuple with `predefined_info = {'name': name} if name else
None` (lines 634–639). -/
inductive UrlItem where
  | dict (url : Option String) (info : PredefinedInfo)
  | pair (url : String) (name : String)

/-- The url a list item resolves to (empty when the dict key is absent). -/
def item_url : UrlItem → String
  | .dict u _ => u.getD ""
  | .pair u _ => u

/-- The predefined info a list item resolves to (lines 634–639). -/
def item_pre : UrlItem → Option PredefinedInfo
  | .dict _ info => some info
  | .pair _ n =>
    if n = "" then none
    else some { name := some n, transportation := none, address := none,
                phone := none, management_years := none }

/-- The per-item loop of lines 632–649, carrying the 1-based enumeration
index.  An item whose url is falsy is skipped by the `continue` of
line 642 (the index still advances, since `enumerate` numbers every item).
The renderer environment `env` supplies one `NavOracle` per index. -/
def check_props_go (env : Nat → NavOracle) (max_retries : Nat) :
    Nat → List UrlItem → List PropertyResult
  | _, [] => []
  | i, item :: rest =>
    if item_url item = "" then check_props_go env max_retries (i + 1) rest
    else
      (check_single_property (env i) max_retries (item_url item) (item_pre item)).result
        :: check_props_go env max_retries (i + 1) rest

/-- `check_properties(url_data)`, lines 611–656: sequential loop over the
items, enumeration starting at 1. -/
def check_properties (env : Nat → NavOracle) (max_retries : Nat)
    (url_data : List UrlItem) : List PropertyResult :=
  check_props_go env max_retries 1 url_data

/-! ## Diff engine (`compare_results`, lines 755–850) -/

/-- The per-url value stored in the vacancy mappings of lines 780–799. -/
structure VacantEntry where
  property_name : Option String
  total_vacant : Nat
  vacant_rooms : List UnitRecord
deriving DecidableEq

/-- One entry of `comparison_result['new_properties']`
(lines 817–823). -/
structure NewProperty where
  url : String
  property_name : Option String
  total_vacant : Nat
  vacant_rooms : List UnitRecord
  change_type : String
deriving DecidableEq

/-- `comparison_result['comparison_summary']`: starts as the empty dict
(line 770); the success path stores the five counts (lines 829–835), the
failure path stores only `error` (line 848). -/
structure ComparisonSummary where
  previous_vacant_count : Option Nat
  current_vacant_count : Option Nat
  new_vacant_properties : Option Nat
  increased_vacant_properties : Option Nat
  total_new_changes : Option Nat
  error : Option String
deriving DecidableEq

/-- The dict returned by `compare_results` (lines 766–771 and
onward). -/
structure ComparisonResult where
  has_new_properties : Bool
  new_properties : List NewProperty
  previous_file : String
  comparison_summary : ComparisonSummary
deriving DecidableEq

/-- The url-keyed vacancy mapping of lines 780–788 (and 791–799): entries
with `status == 'success' and total_vacant > 0`, inserted in list order
with dict overwrite semantics. -/
def build_vacant_map (results : List PropertyResult) :
    List (String × VacantEntry) :=
  results.foldl
    (fun m r =>
      if r.status = "success" ∧ r.total_vacant > 0 then
        dinsert m r.url
          { property_name := r.property_name, total_vacant := r.total_vacant,
            vacant_rooms := r.vacant_rooms }
      else m)
    []

/-- `new_vacant_urls` of line 802: urls in the current mapping and not in
the previous one (set difference, realised here in current-key order). -/
def new_vacant_urls (cm pm : List (String × VacantEntry)) : List String :=
  (cm.map Prod.fst).filter (fun u => (dict_get pm u).isNone)

/-- `increased_vacant_urls` of lines 805–811: urls present in both
mappings whose current `total_vacant` strictly exceeds the previous
one. -/
def increased_vacant_urls (cm pm : List (String × VacantEntry)) : List String :=
  (cm.map Prod.fst).filter (fun u =>
    match dict_get pm u, dict_get cm u with
    | some p, some c => decide (p.total_vacant < c.total_vacant)
    | _, _ => false)

/-- `new_properties` of lines 813–823: one entry per url of
`list(new_vacant_urls) + increased_vacant_urls`, carrying the current
mapping's values and the change type. -/
def new_properties_of (cm pm : List (String × VacantEntry)) :
    List NewProperty :=
  (new_vacant_urls cm pm ++ increased_vacant_urls cm pm).filterMap
    (fun u =>
      (dict_get cm u).map (fun c =>
        { url := u, property_name := c.property_name,
          total_vacant := c.total_vacant, vacant_rooms := c.vacant_rooms,
          change_type :=
            if u ∈ new_vacant_urls cm pm then "new" else "increased" }))

/-- `compare_results(current_results, previous_file)`, lines 755–850.
Opening and JSON-parsing the previous snapshot (lines 775–777) is external
I/O; its outcome is the `loaded` argument.  Any exception there lands in
the `except` of lines 844–848, which forces `has_new_properties = True`
and records the error description in the comparison summary. -/
def compare_results (current_results : List PropertyResult)
    (previous_file : String) (loaded : Except String (List PropertyResult)) :
    ComparisonResult :=
  match loaded with
  | .error e =>
    { has_new_properties := true
      new_properties := []
      previous_file := previous_file
      comparison_summary :=
        { previous_vacant_count := none, current_vacant_count := none,
          new_vacant_properties := none, increased_vacant_properties := none,
          total_new_changes := none, error := some e } }
  | .ok previous_results =>
    let cm := build_vacant_map current_results
    let pm := build_vacant_map previous_results
    let props := new_properties_of cm pm
    { has_new_properties := !props.isEmpty
      new_properties := props
      previous_file := previous_file
      comparison_summary :=
        { previous_vacant_count := some pm.length
          current_vacant_count := some cm.length
          new_vacant_properties := some (new_vacant_urls cm pm).length
          increased_vacant_properties := some (increased_vacant_urls cm pm).length
          total_new_changes := some props.length
          error := none } }

/-! ## Snapshot store (`find_latest_result_file`, lines 715–753, and
`save_results`, lines 896–924) -/

/-- The default timestamp key of line 745. -/
def ts_min : String := "00000000_000000"

/-- Match `ur_net_results_(\d{8}_\d{6})\.json` at the head of the
character list, returning the captured group.  All regex pieces are fixed
width, so matching at a position is deterministic: the literal prefix
occupies positions 0–14, the eight digits 15–22, the underscore 23, the
six digits 24–29, and `.json` from 30.  `\d` is modelled as ASCII
digits. -/
def match_ts_at (s : List Char) : Option String :=
  if "ur_net_results_".data.isPrefixOf s ∧
      ((s.drop 15).take 8).length = 8 ∧
      ((s.drop 15).take 8).all Char.isDigit ∧
      ['_'].isPrefixOf (s.drop 23) ∧
      ((s.drop 24).take 6).length = 6 ∧
      ((s.drop 24).take 6).all Char.isDigit ∧
      ".json".data.isPrefixOf (s.drop 30) then
    some (String.mk ((s.drop 15).take 8 ++ '_' :: (s.drop 24).take 6))
  else none

/-- `re.search`: leftmost position at which the pattern matches. -/
def search_ts : List Char → Option String
  | [] => none
  | c :: rest =>
    match match_ts_at (c :: rest) with
    | some t => some t
    | none => search_ts rest

/-- `extract_timestamp` of lines 738–745: the captured timestamp, or the
minimum key `00000000_000000` when the filename does not match. -/
def extract_timestamp (filename : String) : String :=
  match search_ts filename.data with
  | some t => t
  | none => ts_min

/-- The glob pattern `ur_net_results_*.json` of line 731 applied to a
basename: prefix, any middle, suffix. -/
def glob_match (name : String) : Bool :=
  "ur_net_results_".data.isPrefixOf name.data &&
  ".json".data.isSuffixOf (name.data.drop "ur_net_results_".data.length)

/-- `find_latest_result_file(results_dir)`, lines 715–753.  The directory
listing is external I/O: `none` models an absent directory (line 726, and
the `except` of line 751), `some files` the basenames present.  Among the
glob matches the file with the `max` key under `extract_timestamp` is
returned. -/
def find_latest_result_file (dir_files : Option (List String)) :
    Option String :=
  match dir_files with
  | none => none
  | some files =>
    match files.filter glob_match with
    | [] => none
    | f :: fs => some (max_by_key extract_timestamp f fs)

/-- Snapshot file contents, the `result_data` dict of lines 917–921.  The
filename timestamp (`strftime`) and the data timestamp (`isoformat`) both
derive from `datetime.now()`; the embedding uses one timestamp string for
both. -/
structure SnapshotData where
  timestamp : String
  total_checked : Nat
  total_vacant_rooms : Nat
  results : List PropertyResult
deriving DecidableEq

/-- The file-system state touched by `save_results`: the set of existing
directories and a path-keyed map of snapshot files. -/
structure FileSys where
  dirs : List String
  files : List (String × SnapshotData)
deriving DecidableEq

/-- `open(path, 'w')` followed by `json.dump`: (over)writes the file at
`path`. -/
def fs_write (fs : FileSys) (path : String) (data : SnapshotData) : FileSys :=
  { fs with files := (path, data) :: fs.files.filter (fun p => !(p.1 == path)) }

/-- The output directory of lines 907–908. -/
def results_dir_of (app_exists : Bool) : String :=
  if app_exists then "/app/results" else "results"

/-- `save_results(results, 'json', None)`, lines 896–924, for the
auto-generated output path: `os.makedirs(results_dir, exist_ok=True)`,
then the JSON snapshot is written at
`results_dir/ur_net_results_{timestamp}.json`. -/
def save_results (fs : FileSys) (results : List PropertyResult)
    (ts : String) (app_exists : Bool) : FileSys :=
  let rdir := results_dir_of app_exists
  let fs1 : FileSys :=
    { fs with dirs := if rdir ∈ fs.dirs then fs.dirs else rdir :: fs.dirs }
  let path := rdir ++ "/ur_net_results_" ++ ts ++ ".json"
  let data : SnapshotData :=
    { timestamp := ts
      total_checked := results.length
      total_vacant_rooms :=
        ((results.filter (fun r => r.status = "success")).map
          (fun r => r.total_vacant)).sum
      results := results }
  fs_write fs1 path data

/-- The computed snapshot path of line 911. -/
def save_path (ts : String) (app_exists : Bool) : String :=
  results_dir_of app_exists ++ "/ur_net_results_" ++ ts ++ ".json"

/-! ## Sample inputs used by witnesses and counterexamples -/

/-- A benign page: no exception, no rows, nothing scraped. -/
def sample_page : PageData :=
  { raises := false, nameChain := none, title := "", rows := [],
    scr_transportation := none, scr_address := none, scr_phone := none,
    scr_management_years := none }

/-- A page whose extraction body raises (outer `except` path). -/
def raising_page : PageData :=
  { raises := true, nameChain := none, title := "", rows := [],
    scr_transportation := none, scr_address := none, scr_phone := none,
    scr_management_years := none }

/-- A target whose renderer always succeeds. -/
def sample_oracle : NavOracle :=
  { new_page_ok := true, nav := fun _ => true, close_ok := true,
    close_retry_ok := true, page := sample_page }

/-- A target whose navigation fails on every attempt. -/
def failing_oracle : NavOracle :=
  { new_page_ok := true, nav := fun _ => false, close_ok := true,
    close_retry_ok := true, page := sample_page }

/-- An environment serving the always-successful renderer. -/
def sample_env : Nat → NavOracle := fun _ => sample_oracle

/-- A predefined-info dict with no keys. -/
def empty_info : PredefinedInfo :=
  { name := none, transportation := none, address := none, phone := none,
    management_years := none }

/-- A row whose layout and rent chains both produced a value. -/
def sample_row : RowResult :=
  { raises := false, room_name := none, rent := some "50,000", room_type := some "1LDK",
    area := none, floor := none, button := none }

/-- A successful Property Result with `n` vacant units, for the diff
examples. -/
def res_entry (u : String) (n : Nat) : PropertyResult :=
  { url := u, property_name := some u, title := "",
    vacant_rooms := List.replicate n
      { type := "1LDK", rent := "50,000", area := "50㎡", floor := "5階" },
    total_vacant := n, phone_number := "p", phone_source := "s",
    transportation := "t", transportation_source := "s", address := "a",
    address_source := "s", management_years := "m",
    management_years_source := "s", status := "success", error := none }

/-- The spec's worked example: prior vacant set `{A:1, B:2}`. -/
def prev_example : List PropertyResult := [res_entry "A" 1, res_entry "B" 2]

/-- The spec's worked example: current vacant set `{A:1, B:3, C:1}`. -/
def cur_example : List PropertyResult :=
  [res_entry "A" 1, res_entry "B" 3, res_entry "C" 1]

/-- A pre-existing snapshot file's contents. -/
def old_snap : SnapshotData :=
  { timestamp := "old", total_checked := 0, total_vacant_rooms := 0, results := [] }

/-- A file system that already holds a snapshot at the path a save at
timestamp `20250101_000000` would compute. -/
def fs0 : FileSys :=
  { dirs := ["results"],
    files := [(save_path "20250101_000000" false, old_snap)] }

/-! ## Helper lemmas -/

theorem check_single_result_cases (o : NavOracle) (mr : Nat) (url : String)
    (pre : Option PredefinedInfo) :
    (∃ e, (check_single_property o mr url pre).result = target_failed_result url pre e) ∨
    (check_single_property o mr url pre).result = extract_property_info o.page url pre := by
  cases hn : o.new_page_ok
  · exact Or.inl ⟨"Max retries exceeded", by simp [check_single_property, hn]⟩
  · cases hr : (nav_from o.nav mr).1
    · exact Or.inl ⟨"ページ読み込み失敗", by simp [check_single_property, hn, hr]⟩
    · cases hc : o.close_ok
      · exact Or.inl ⟨"Max retries exceeded", by simp [check_single_property, hn, hr, hc]⟩
      · by_cases hs : (extract_property_info o.page url pre).status = "success"
        · exact Or.inr (by simp [check_single_property, hn, hr, hc, hs])
        · exact Or.inl ⟨"Max retries exceeded",
            by simp [check_single_property, hn, hr, hc, hs]⟩

theorem row_unit_some {r : RowResult} {u : UnitRecord} (h : row_unit r = some u) :
    r.raises = false ∧ r.room_type = some u.type ∧ r.rent = some u.rent := by
  rcases hz : r.raises
  · rcases hT : r.room_type with _ | t
    · simp [row_unit, hz, hT] at h
    · rcases hR : r.rent with _ | s
      · simp [row_unit, hz, hT, hR] at h
      · refine ⟨rfl, ?_, ?_⟩ <;>
          · simp [row_unit, row_is_vacant, hz, hT, hR] at h
            simp [hT, hR, ← h]
  · simp [row_unit, hz] at h

theorem row_unit_isSome (r : RowResult) :
    (row_unit r).isSome = true ↔
      r.raises = false ∧ r.room_type.isSome = true ∧ r.rent.isSome = true := by
  rcases hz : r.raises
  · rcases hT : r.room_type with _ | t <;> rcases hR : r.rent with _ | s <;>
      simp [row_unit, row_is_vacant, hz, hT, hR]
  · simp [row_unit, hz]

/-! ## Claims -/

/-- C3: if loading or parsing the prior snapshot fails, the diff engine
fails open: `has_new_properties` is forced to `true`, the error
description is recorded in the comparison summary, and no notification is
suppressed (the decision is returned, not an abort). -/
theorem C3_fail_open (cur : List PropertyResult) (f e : String) :
    (compare_results cur f (Except.error e)).has_new_properties = true ∧
    (compare_results cur f (Except.error e)).comparison_summary.error = some e ∧
    (compare_results cur f (Except.error e)).new_properties = [] :=
  ⟨rfl, rfl, rfl⟩

/-- C10: on every return path of extraction and of single-target checking
(success, exhausted navigation retries, caught exception), the returned
Property Result's `url` field equals the url argument passed in. -/
theorem C10_url_preserved (page : PageData) (url : String)
    (pre : Option PredefinedInfo) (o : NavOracle) (mr : Nat) :
    (extract_property_info page url pre).url = url ∧
    (check_single_property o mr url pre).result.url = url := by
  have hex : ∀ pg : PageData, (extract_property_info pg url pre).url = url := by
    intro pg
    unfold extract_property_info
    split
    · rfl
    · rfl
  refine ⟨hex page, ?_⟩
  rcases check_single_result_cases o mr url pre with ⟨e, he⟩ | he
  · rw [he]; rfl
  · rw [he]; exact hex o.page

/-- C4: every Property Result produced by extraction or by single-target
checking satisfies `total_vacant = vacant_rooms.length`, and a failed
result always carries an empty unit list, on every return path. -/
theorem C4_unit_count_invariant (page : PageData) (url : String)
    (pre : Option PredefinedInfo) (o : NavOracle) (mr : Nat) :
    ((extract_property_info page url pre).total_vacant
        = (extract_property_info page url pre).vacant_rooms.length) ∧
    ((extract_property_info page url pre).status = "failed" →
        (extract_property_info page url pre).vacant_rooms = []) ∧
    ((check_single_property o mr url pre).result.total_vacant
        = (check_single_property o mr url pre).result.vacant_rooms.length) ∧
    ((check_single_property o mr url pre).result.status = "failed" →
        (check_single_property o mr url pre).result.vacant_rooms = []) := by
  have hex : ∀ pg : PageData,
      ((extract_property_info pg url pre).total_vacant
          = (extract_property_info pg url pre).vacant_rooms.length) ∧
      ((extract_property_info pg url pre).status = "failed" →
          (extract_property_info pg url pre).vacant_rooms = []) := by
    intro pg
    unfold extract_property_info
    split
    · exact ⟨rfl, fun _ => rfl⟩
    · refine ⟨rfl, fun h => ?_⟩
      exact absurd h (by simp [extract_success_result])
  refine ⟨(hex page).1, (hex page).2, ?_, ?_⟩ <;>
    rcases check_single_result_cases o mr url pre with ⟨e, he⟩ | he <;> rw [he]
  · rfl
  · exact (hex o.page).1
  · exact fun _ => rfl
  · exact (hex o.page).2

/-- C4 witness: the invariant instantiated at the raising page, whose
extraction takes the failure path. -/
theorem C4_witness :
    (extract_property_info raising_page "u" none).status = "failed" ∧
    (extract_property_info raising_page "u" none).vacant_rooms = [] :=
  ⟨by decide, (C4_unit_count_invariant raising_page "u" none sample_oracle 5).2.1 (by decide)⟩

/-- C5: a Unit Record is emitted for a row only when both its layout and
its rent chains produced a value; the emitted record carries exactly those
extracted values (never the `不明` sentinel fallback), and every unit in
an extraction result arises from such a row. -/
theorem C5_no_sentinel_units (r : RowResult) (u : UnitRecord) (page : PageData)
    (url : String) (pre : Option PredefinedInfo) :
    (row_unit r = some u → r.room_type = some u.type ∧ r.rent = some u.rent) ∧
    ((row_unit r).isSome = true ↔
        r.raises = false ∧ r.room_type.isSome = true ∧ r.rent.isSome = true) ∧
    (∀ v ∈ (extract_property_info page url pre).vacant_rooms,
        ∃ rr ∈ page.rows, row_unit rr = some v ∧
          rr.room_type = some v.type ∧ rr.rent = some v.rent) := by
  refine ⟨fun h => ⟨(row_unit_some h).2.1, (row_unit_some h).2.2⟩, row_unit_isSome r, ?_⟩
  intro v hv
  unfold extract_property_info at hv
  split at hv
  · simp [extract_failed_result] at hv
  · simp only [extract_success_result] at hv
    obtain ⟨rr, hrr, hru⟩ := List.mem_filterMap.mp hv
    exact ⟨rr, hrr, hru, (row_unit_some hru).2.1, (row_unit_some hru).2.2⟩

/-- C5 witness: a concrete row with layout `1LDK` and rent `50,000`
emits a unit carrying exactly those values. -/
theorem C5_witness :
    row_unit sample_row
        = some { type := "1LDK", rent := "50,000", area := "不明", floor := "不明" } ∧
    (sample_row.room_type
        = some ({ type := "1LDK", rent := "50,000", area := "不明", floor := "不明" } :
            UnitRecord).type ∧
     sample_row.rent
        = some ({ type := "1LDK", rent := "50,000", area := "不明", floor := "不明" } :
            UnitRecord).rent) :=
  ⟨by decide,
   (C5_no_sentinel_units sample_row
      { type := "1LDK", rent := "50,000", area := "不明", floor := "不明" }
      sample_page "u" none).1 (by decide)⟩

theorem check_props_go_len (env : Nat → NavOracle) (mr : Nat) :
    ∀ (items : List UrlItem) (i : Nat),
      (check_props_go env mr i items).length
        = (items.filter (fun it => decide (item_url it ≠ ""))).length := by
  intro items
  induction items with
  | nil => intro i; rfl
  | cons it rest ih =>
    intro i
    by_cases h : item_url it = "" <;>
      simp [check_props_go, h, List.filter_cons, ih (i + 1)]

theorem check_props_go_enum (env : Nat → NavOracle) (mr : Nat) :
    ∀ (items : List UrlItem) (i : Nat),
      check_props_go env mr i items
        = (List.enumFrom i items).filterMap
            (fun p => if item_url p.2 = "" then none
              else some (check_single_property (env p.1) mr (item_url p.2)
                (item_pre p.2)).result) := by
  intro items
  induction items with
  | nil => intro i; rfl
  | cons it rest ih =>
    intro i
    by_cases h : item_url it = "" <;>
      simp [check_props_go, h, List.enumFrom, List.filterMap_cons, ih (i + 1)]

/-- C1 counterexample: a target dict with no url is skipped by the
`continue` of line 642, so the output list is shorter than the input
list. -/
theorem C1_counterexample :
    check_properties sample_env 5 [UrlItem.dict none empty_info] = [] ∧
    ([UrlItem.dict none empty_info] : List UrlItem).length = 1 :=
  ⟨rfl, rfl⟩

/-- C1 (amended): the orchestrator produces exactly one Property Result
per target with a non-empty url, in input order and indexed by the
target's 1-based position in the full input list; hence the output length
equals the input length whenever every target has a non-empty url, and in
general equals the number of targets with a non-empty url (targets with an
empty or missing url are silently skipped). -/
theorem C1_amended (env : Nat → NavOracle) (mr : Nat) (items : List UrlItem) :
    ((∀ it ∈ items, item_url it ≠ "") →
        (check_properties env mr items).length = items.length) ∧
    ((check_properties env mr items).length
        = (items.filter (fun it => decide (item_url it ≠ ""))).length) ∧
    (check_properties env mr items
        = (List.enumFrom 1 items).filterMap
            (fun p => if item_url p.2 = "" then none
              else some (check_single_property (env p.1) mr (item_url p.2)
                (item_pre p.2)).result)) := by
  refine ⟨?_, check_props_go_len env mr items 1, check_props_go_enum env mr items 1⟩
  intro hall
  have hf : items.filter (fun it => decide (item_url it ≠ "")) = items :=
    List.filter_eq_self.mpr (fun a ha => by simp [hall a ha])
  rw [check_properties, check_props_go_len env mr items 1, hf]

/-- C1 witness: with a non-empty url the batch produces one result. -/
theorem C1_witness :
    (check_properties sample_env 5 [UrlItem.pair "http://x" "n"]).length = 1 :=
  (C1_amended sample_env 5 [UrlItem.pair "http://x" "n"]).1 (by decide)

/-- C7 counterexample: a target whose navigation fails on every attempt
returns at line 557 without any `page.close()` — the acquired page context
is still open when the orchestrator moves to the next target. -/
theorem C7_counterexample :
    (check_single_property failing_oracle 2 "u" none).page_opened = true ∧
    (check_single_property failing_oracle 2 "u" none).page_closed = false ∧
    (check_single_property failing_oracle 2 "u" none).result.status = "failed" := by
  refine ⟨by decide, by decide, by decide⟩

/-- C7 (amended): the page context is released before the next target on
the navigated paths — successful extraction, extraction error, and
exception during close (where release happens iff the handler's retried
close succeeds) — but on exhausted navigation retries the code returns
without closing the page. -/
theorem C7_amended (o : NavOracle) (mr : Nat) (url : String)
    (pre : Option PredefinedInfo) :
    (o.new_page_ok = true → (nav_from o.nav mr).1 = true → o.close_ok = true →
        (check_single_property o mr url pre).page_closed = true) ∧
    (o.new_page_ok = true → (nav_from o.nav mr).1 = false →
        (check_single_property o mr url pre).page_opened = true ∧
        (check_single_property o mr url pre).page_closed = false) ∧
    (o.new_page_ok = true → (nav_from o.nav mr).1 = true → o.close_ok = false →
        (check_single_property o mr url pre).page_closed = o.close_retry_ok) := by
  refine ⟨?_, ?_, ?_⟩
  · intro hn hr hc
    by_cases hs : (extract_property_info o.page url pre).status = "success" <;>
      simp [check_single_property, hn, hr, hc, hs]
  · intro hn hr
    simp [check_single_property, hn, hr]
  · intro hn hr hc
    simp [check_single_property, hn, hr, hc]

/-- C7 witness: a fully successful target's page context is released. -/
theorem C7_witness :
    (check_single_property sample_oracle 5 "u" none).page_closed = true :=
  (C7_amended sample_oracle 5 "u" none).1 rfl (by decide) rfl

theorem dict_get_filter_ne {β : Type} (l : List (String × β)) (path p : String)
    (h : p ≠ path) :
    dict_get (l.filter (fun q => !(q.1 == path))) p = dict_get l p := by
  induction l with
  | nil => rfl
  | cons q rest ih =>
    by_cases hq : q.1 = path
    · have hcond : (!(q.1 == path)) = false := by simp [hq]
      have hqp : ¬ q.1 = p := fun hh => h (hq ▸ hh).symm
      rw [List.filter_cons, hcond, if_neg (by simp), dict_get, if_neg hqp, ih]
    · have hcond : (!(q.1 == path)) = true := by simp [hq]
      rw [List.filter_cons, hcond, if_pos rfl, dict_get, dict_get]
      by_cases hqp : q.1 = p <;> simp [hqp, ih]

/-- C9 counterexample: saving over an existing snapshot file with the
same computed name replaces its contents (`open(path, 'w')` truncates),
contradicting "never overwrites an existing snapshot file that has the
same computed name". -/
theorem C9_counterexample :
    dict_get fs0.files (save_path "20250101_000000" false) = some old_snap ∧
    dict_get (save_results fs0 [] "20250101_000000" false).files
        (save_path "20250101_000000" false)
      = some { timestamp := "20250101_000000", total_checked := 0,
               total_vacant_rooms := 0, results := [] } ∧
    ({ timestamp := "20250101_000000", total_checked := 0,
       total_vacant_rooms := 0, results := [] } : SnapshotData) ≠ old_snap :=
  ⟨by decide, by decide, by decide⟩

/-- C9 (amended): a save creates the output directory when absent and
leaves every file other than the computed snapshot path unchanged; the
snapshot is written at the computed path, overwriting a file already at
that exact path (distinct run timestamps are what keep runs from
colliding). -/
theorem C9_save_amended (fs : FileSys) (results : List PropertyResult)
    (ts : String) (app_exists : Bool) :
    results_dir_of app_exists ∈ (save_results fs results ts app_exists).dirs ∧
    (∀ p, p ≠ save_path ts app_exists →
        dict_get (save_results fs results ts app_exists).files p
          = dict_get fs.files p) ∧
    dict_get (save_results fs results ts app_exists).files (save_path ts app_exists)
      = some { timestamp := ts, total_checked := results.length,
               total_vacant_rooms :=
                 ((results.filter (fun r => r.status = "success")).map
                   (fun r => r.total_vacant)).sum,
               results := results } := by
  refine ⟨?_, ?_, ?_⟩
  · simp only [save_results, fs_write]
    by_cases h : results_dir_of app_exists ∈ fs.dirs <;> simp [h]
  · intro p hp
    simp only [save_results, fs_write, save_path] at hp ⊢
    rw [dict_get, if_neg (fun hh => hp hh.symm)]
    exact dict_get_filter_ne fs.files _ p hp
  · simp only [save_results, fs_write, save_path]
    rw [dict_get, if_pos rfl]

/-- C9 witness: a save leaves an unrelated path untouched. -/
theorem C9_witness :
    dict_get (save_results fs0 [] "x" false).files "other"
      = dict_get fs0.files "other" :=
  (C9_save_amended fs0 [] "x" false).2.1 "other" (by decide)

theorem dict_get_isSome_iff {β : Type} (m : List (String × β)) (u : String) :
    (dict_get m u).isSome = true ↔ u ∈ m.map Prod.fst := by
  induction m with
  | nil => simp [dict_get]
  | cons p rest ih =>
    by_cases h : p.1 = u
    · simp [dict_get, h]
    · have h' : ¬ u = p.1 := fun hh => h hh.symm
      simp [dict_get, h, h', ih]

theorem mem_new_vacant_urls (cm pm : List (String × VacantEntry)) (u : String) :
    u ∈ new_vacant_urls cm pm ↔
      (dict_get cm u).isSome = true ∧ dict_get pm u = none := by
  simp [new_vacant_urls, List.mem_filter, dict_get_isSome_iff,
    Option.isNone_iff_eq_none]

theorem mem_increased_vacant_urls (cm pm : List (String × VacantEntry))
    (u : String) :
    u ∈ increased_vacant_urls cm pm ↔
      ∃ p c, dict_get pm u = some p ∧ dict_get cm u = some c ∧
        p.total_vacant < c.total_vacant := by
  constructor
  · intro hu
    obtain ⟨hk, hp⟩ := List.mem_filter.mp hu
    rcases hP : dict_get pm u with _ | p
    · rw [increased_vacant_urls] at hu
      rw [hP] at hp; simp at hp
    · rcases hC : dict_get cm u with _ | c
      · rw [hP, hC] at hp; simp at hp
      · rw [hP, hC] at hp; simp only [decide_eq_true_eq] at hp
        exact ⟨p, c, rfl, rfl, hp⟩
  · rintro ⟨p, c, hP, hC, hlt⟩
    refine List.mem_filter.mpr ⟨?_, ?_⟩
    · exact (dict_get_isSome_iff cm u).mp (by simp [hC])
    · rw [hP, hC]; simpa using hlt

theorem mem_new_properties (cm pm : List (String × VacantEntry))
    (e : NewProperty) :
    e ∈ new_properties_of cm pm ↔
      ∃ u c, (u ∈ new_vacant_urls cm pm ∨ u ∈ increased_vacant_urls cm pm) ∧
        dict_get cm u = some c ∧
        e = { url := u, property_name := c.property_name,
              total_vacant := c.total_vacant, vacant_rooms := c.vacant_rooms,
              change_type :=
                if u ∈ new_vacant_urls cm pm then "new" else "increased" } := by
  rw [new_properties_of, List.mem_filterMap]
  constructor
  · rintro ⟨u, hu, hf⟩
    rcases Option.map_eq_some'.mp hf with ⟨c, hC, he⟩
    exact ⟨u, c, List.mem_append.mp hu, hC, he.symm⟩
  · rintro ⟨u, c, hu, hC, he⟩
    exact ⟨u, List.mem_append.mpr hu, by rw [hC]; simp [he]⟩

theorem compare_ok_new_properties (cur : List PropertyResult) (f : String)
    (prev : List PropertyResult) :
    (compare_results cur f (Except.ok prev)).new_properties
      = new_properties_of (build_vacant_map cur) (build_vacant_map prev) := rfl

theorem compare_ok_has_new (cur : List PropertyResult) (f : String)
    (prev : List PropertyResult) :
    (compare_results cur f (Except.ok prev)).has_new_properties
      = !(new_properties_of (build_vacant_map cur)
            (build_vacant_map prev)).isEmpty := rfl

/-- C2: after restricting both sides to successful results with a
positive unit count, the decision's newly-vacant list contains exactly the
urls in the current mapping that are absent from the prior mapping, plus
those present in both with a strictly greater current count; the flag is
set iff that list is non-empty; every flagged entry is classified `new`
precisely when the url is absent from the prior mapping and `increased`
otherwise (so decreases and disappearances are never flagged); and the
worked `{A:1,B:2}` to `{A:1,B:3,C:1}` example flags B as increased and C
as new, excludes A, and notifies. -/
theorem C2_diff_decision (cur prev : List PropertyResult) (f u : String) :
    ((∃ e ∈ (compare_results cur f (Except.ok prev)).new_properties, e.url = u) ↔
      ((dict_get (build_vacant_map cur) u).isSome = true ∧
        (dict_get (build_vacant_map prev) u = none ∨
          ∃ p c, dict_get (build_vacant_map prev) u = some p ∧
            dict_get (build_vacant_map cur) u = some c ∧
            p.total_vacant < c.total_vacant))) ∧
    ((compare_results cur f (Except.ok prev)).has_new_properties = true ↔
      (compare_results cur f (Except.ok prev)).new_properties ≠ []) ∧
    (∀ e ∈ (compare_results cur f (Except.ok prev)).new_properties,
      (dict_get (build_vacant_map prev) e.url = none → e.change_type = "new") ∧
      (dict_get (build_vacant_map prev) e.url ≠ none →
        e.change_type = "increased")) ∧
    ((compare_results cur_example "p.json" (Except.ok prev_example)).has_new_properties
        = true ∧
      (∃ e ∈ (compare_results cur_example "p.json"
          (Except.ok prev_example)).new_properties,
        e.url = "B" ∧ e.change_type = "increased") ∧
      (∃ e ∈ (compare_results cur_example "p.json"
          (Except.ok prev_example)).new_properties,
        e.url = "C" ∧ e.change_type = "new") ∧
      (∀ e ∈ (compare_results cur_example "p.json"
          (Except.ok prev_example)).new_properties, e.url ≠ "A")) := by
  refine ⟨?_, ?_, ?_, by decide, by decide, by decide, by decide⟩
  · rw [compare_ok_new_properties]
    constructor
    · rintro ⟨e, he, heu⟩
      obtain ⟨u', c, hor, hC, hform⟩ := (mem_new_properties _ _ e).mp he
      have hu' : u' = u := by rw [hform] at heu; exact heu
      subst hu'
      refine ⟨by simp [hC], ?_⟩
      rcases hor with hnew | hinc
      · exact Or.inl ((mem_new_vacant_urls _ _ _).mp hnew).2
      · obtain ⟨p, c', hP, hC', hlt⟩ := (mem_increased_vacant_urls _ _ _).mp hinc
        exact Or.inr ⟨p, c', hP, hC', hlt⟩
    · rintro ⟨hsome, hcase⟩
      rcases hC : dict_get (build_vacant_map cur) u with _ | c
      · rw [hC] at hsome; simp at hsome
      · have hmem : u ∈ new_vacant_urls (build_vacant_map cur) (build_vacant_map prev)
            ∨ u ∈ increased_vacant_urls (build_vacant_map cur) (build_vacant_map prev) := by
          rcases hcase with hnone | ⟨p, c', hP, hC', hlt⟩
          · exact Or.inl ((mem_new_vacant_urls _ _ _).mpr ⟨by simp [hC], hnone⟩)
          · exact Or.inr ((mem_increased_vacant_urls _ _ _).mpr ⟨p, c', hP, hC', hlt⟩)
        exact ⟨_, (mem_new_properties _ _ _).mpr ⟨u, c, hmem, hC, rfl⟩, rfl⟩
  · rw [compare_ok_has_new, compare_ok_new_properties]
    cases new_properties_of (build_vacant_map cur) (build_vacant_map prev) <;> simp
  · intro e he
    rw [compare_ok_new_properties] at he
    obtain ⟨u', c, hor, hC, hform⟩ := (mem_new_properties _ _ e).mp he
    subst hform
    by_cases hn : u' ∈ new_vacant_urls (build_vacant_map cur) (build_vacant_map prev)
    · have hnone := ((mem_new_vacant_urls _ _ _).mp hn).2
      exact ⟨fun _ => by simp [hn], fun hne => absurd hnone hne⟩
    · have hinc := hor.resolve_left hn
      obtain ⟨p, c', hP, -, -⟩ := (mem_increased_vacant_urls _ _ _).mp hinc
      refine ⟨fun hnone => ?_, fun _ => by simp [hn]⟩
      rw [hP] at hnone; exact absurd hnone (by simp)

/-- C2 witness: the worked example's decision, obtained through the
claim theorem. -/
theorem C2_witness :
    (compare_results cur_example "p.json"
        (Except.ok prev_example)).has_new_properties = true :=
  ((C2_diff_decision cur_example prev_example "p.json" "B").2.1).mpr (by decide)

theorem nav_loop_le (nav : Nat → Bool) (mr : Nat) :
    ∀ (fuel a : Nat), fuel = mr - a → a ≤ mr →
      (nav_loop nav mr a fuel).2.1 ≤ mr := by
  intro fuel
  induction fuel with
  | zero => intro a _ ha; simpa [nav_loop] using ha
  | succ n ih =>
    intro a hf ha
    have ha' : a < mr := by omega
    by_cases h1 : nav a
    · simp [nav_loop, h1]; omega
    · by_cases h2 : a + 1 < mr
      · simpa [nav_loop, h1, h2] using ih (a + 1) (by omega) (by omega)
      · simp [nav_loop, h1, h2]; omega

theorem nav_loop_all_fail (nav : Nat → Bool) (mr : Nat)
    (hall : ∀ i, i < mr → nav i = false) :
    ∀ (fuel a : Nat), fuel = mr - a → a < mr →
      nav_loop nav mr a fuel
        = (false, mr, (List.range' a (mr - 1 - a)).map (fun j => 2 ^ j)) := by
  intro fuel
  induction fuel with
  | zero => intro a hf ha; omega
  | succ n ih =>
    intro a hf ha
    by_cases h2 : a + 1 < mr
    · have hrec := ih (a + 1) (by omega) h2
      have hstep : mr - 1 - a = (mr - 1 - (a + 1)) + 1 := by omega
      simp [nav_loop, hall a ha, h2, hrec, hstep, List.range']
    · have h3 : mr - 1 - a = 0 := by omega
      have h4 : mr = a + 1 := by omega
      simp [nav_loop, hall a ha, h2, h3, List.range']
      omega

theorem nav_loop_succ_at (nav : Nat → Bool) (mr k : Nat) (hk : nav k = true)
    (hfail : ∀ i, i < k → nav i = false) :
    ∀ (fuel a : Nat), fuel = mr - a → a ≤ k → k < mr →
      nav_loop nav mr a fuel
        = (true, k + 1, (List.range' a (k - a)).map (fun j => 2 ^ j)) := by
  intro fuel
  induction fuel with
  | zero => intro a hf ha hk'; omega
  | succ n ih =>
    intro a hf ha hk'
    by_cases hak : a = k
    · subst hak
      simp [nav_loop, hk, List.range']
    · have halt : a < k := by omega
      have h2 : a + 1 < mr := by omega
      have hrec := ih (a + 1) (by omega) (by omega) hk'
      have hstep : k - a = (k - (a + 1)) + 1 := by omega
      simp [nav_loop, hfail a halt, h2, hrec, hstep, List.range']

/-- C6: navigation is attempted at most `max_retries` times; when every
attempt fails the backoff waits are exactly `2 ^ attempt` for every failed
attempt except the last, the target ends `failed` with the
navigation-failure error and all predefined fields filled in; when attempt
`k` succeeds the backoff waits are `2 ^ 0 .. 2 ^ (k-1)`; and a batch in
which every target has a url processes one result per target regardless of
failures. -/
theorem C6_retry_policy (o : NavOracle) (mr : Nat) (url : String)
    (pre : Option PredefinedInfo) (env : Nat → NavOracle)
    (items : List UrlItem) :
    ((check_single_property o mr url pre).nav_attempts ≤ mr) ∧
    (o.new_page_ok = true → 0 < mr → (∀ i, i < mr → o.nav i = false) →
        (check_single_property o mr url pre).backoff_waits
            = (List.range (mr - 1)).map (fun j => 2 ^ j) ∧
        (check_single_property o mr url pre).nav_attempts = mr ∧
        (check_single_property o mr url pre).result.status = "failed" ∧
        (check_single_property o mr url pre).result.error
            = some "ページ読み込み失敗" ∧
        (check_single_property o mr url pre).result.property_name
            = (match pre with | some p => p.name | none => some "不明な物件") ∧
        (check_single_property o mr url pre).result.phone_number
            = (pre.bind (fun p => p.phone)).getD "不明" ∧
        (check_single_property o mr url pre).result.transportation
            = (pre.bind (fun p => p.transportation)).getD "不明" ∧
        (check_single_property o mr url pre).result.address
            = (pre.bind (fun p => p.address)).getD "不明" ∧
        (check_single_property o mr url pre).result.management_years
            = (pre.bind (fun p => p.management_years)).getD "不明") ∧
    (∀ k, o.new_page_ok = true → o.nav k = true →
        (∀ i, i < k → o.nav i = false) → k < mr →
        (check_single_property o mr url pre).backoff_waits
            = (List.range k).map (fun j => 2 ^ j)) ∧
    ((∀ it ∈ items, item_url it ≠ "") →
        (check_properties env mr items).length = items.length) := by
  refine ⟨?_, ?_, ?_, ?_⟩
  · cases hn : o.new_page_ok
    · simp [check_single_property, hn]
    · have hle := nav_loop_le o.nav mr mr 0 (by omega) (by omega)
      cases hr : (nav_from o.nav mr).1
      · simpa [check_single_property, hn, hr] using hle
      · cases hc : o.close_ok
        · simpa [check_single_property, hn, hr, hc] using hle
        · by_cases hs : (extract_property_info o.page url pre).status = "success" <;>
            simpa [check_single_property, hn, hr, hc, hs] using hle
  · intro hn h0 hall
    have hnl := nav_loop_all_fail o.nav mr hall mr 0 (by omega) h0
    have hr1 : (nav_from o.nav mr).1 = false := by rw [nav_from, hnl]
    have h21 : (nav_from o.nav mr).2.1 = mr := by rw [nav_from, hnl]
    have h22 : (nav_from o.nav mr).2.2
        = (List.range (mr - 1)).map (fun j => 2 ^ j) := by
      rw [nav_from, hnl, List.range_eq_range']; simp
    refine ⟨?_, ?_, ?_, ?_, ?_, ?_, ?_, ?_, ?_⟩ <;>
      simp [check_single_property, hn, hr1, target_failed_result, h21, h22]
  · intro k hn hk hfail hkmr
    have hnl := nav_loop_succ_at o.nav mr k hk hfail mr 0 (by omega) (by omega) hkmr
    have hr1 : (nav_from o.nav mr).1 = true := by rw [nav_from, hnl]
    have h22 : (nav_from o.nav mr).2.2 = (List.range k).map (fun j => 2 ^ j) := by
      rw [nav_from, hnl, List.range_eq_range']; simp
    cases hc : o.close_ok
    · simp [check_single_property, hn, hr1, hc, h22]
    · by_cases hs : (extract_property_info o.page url pre).status = "success" <;>
        simp [check_single_property, hn, hr1, hc, hs, h22]
  · intro hall
    have hf : items.filter (fun it => decide (item_url it ≠ "")) = items :=
      List.filter_eq_self.mpr (fun a ha => by simp [hall a ha])
    rw [check_properties, check_props_go_len env mr items 1, hf]

/-- C6 witness: three always-failing attempts wait `1, 2` time units,
end failed, and do not block the batch. -/
theorem C6_witness :
    (check_single_property failing_oracle 3 "u" none).backoff_waits = [1, 2] ∧
    (check_single_property failing_oracle 3 "u" none).result.status = "failed" ∧
    (check_properties (fun _ => failing_oracle) 3
        [UrlItem.pair "http://x" "n"]).length = 1 := by
  have h := C6_retry_policy failing_oracle 3 "u" none (fun _ => failing_oracle)
    [UrlItem.pair "http://x" "n"]
  have h2 := h.2.1 rfl (by decide) (fun i _ => rfl)
  exact ⟨h2.1.trans (by decide), h2.2.2.1, (h.2.2.2 (by decide)).trans (by decide)⟩

theorem str_lt_irrefl : ∀ a : List Char, str_lt a a = false := by
  intro a
  induction a with
  | nil => rfl
  | cons c cs ih => simp [str_lt, ih]

theorem str_lt_trans :
    ∀ a b c : List Char, str_lt a b = true → str_lt b c = true →
      str_lt a c = true := by
  intro a
  induction a with
  | nil =>
    intro b c hab hbc
    cases b with
    | nil => simp [str_lt] at hab
    | cons y ys =>
      cases c with
      | nil => simp [str_lt] at hbc
      | cons z zs => rfl
  | cons x xs ih =>
    intro b c hab hbc
    cases b with
    | nil => simp [str_lt] at hab
    | cons y ys =>
      cases c with
      | nil => simp [str_lt] at hbc
      | cons z zs =>
        simp only [str_lt] at hab hbc ⊢
        by_cases h1 : x < y
        · by_cases h2 : y < z
          · simp [lt_trans h1 h2]
          · by_cases h3 : z < y
            · rw [if_neg h2, if_pos h3] at hbc
              exact absurd hbc (by simp)
            · have hyz : y = z := le_antisymm (not_lt.mp h3) (not_lt.mp h2)
              have : x < z := hyz ▸ h1
              simp [this]
        · by_cases h1' : y < x
          · rw [if_neg h1, if_pos h1'] at hab
            exact absurd hab (by simp)
          · have hxy : x = y := le_antisymm (not_lt.mp h1') (not_lt.mp h1)
            rw [if_neg h1, if_neg h1'] at hab
            subst hxy
            by_cases h2 : x < z
            · simp [h2]
            · by_cases h3 : z < x
              · rw [if_neg h2, if_pos h3] at hbc
                exact absurd hbc (by simp)
              · rw [if_neg h2, if_neg h3] at hbc
                simp [h2, h3, ih ys zs hab hbc]

theorem str_lt_antisymm_eq :
    ∀ a b : List Char, str_lt a b = false → str_lt b a = false → a = b := by
  intro a
  induction a with
  | nil =>
    intro b h1 _
    cases b with
    | nil => rfl
    | cons y ys => simp [str_lt] at h1
  | cons x xs ih =>
    intro b h1 h2
    cases b with
    | nil => simp [str_lt] at h2
    | cons y ys =>
      simp only [str_lt] at h1 h2
      by_cases hxy : x < y
      · rw [if_pos hxy] at h1
        exact absurd h1 (by simp)
      · by_cases hyx : y < x
        · rw [if_pos hyx] at h2
          exact absurd h2 (by simp)
        · have hx : x = y := le_antisymm (not_lt.mp hyx) (not_lt.mp hxy)
          rw [if_neg hxy, if_neg hyx] at h1
          rw [if_neg hyx, if_neg hxy] at h2
          rw [hx, ih ys h1 h2]

theorem str_lt_of_lt_of_not_lt :
    ∀ a b c : List Char, str_lt a c = true → str_lt b c = false →
      str_lt a b = true := by
  intro a b c hac hbc
  cases hab : str_lt a b
  · cases hba : str_lt b a
    · have hcontra := str_lt_antisymm_eq a b hab hba
      subst hcontra
      rw [hac] at hbc
      exact absurd hbc (by simp)
    · have htr := str_lt_trans b a c hba hac
      rw [htr] at hbc
      exact absurd hbc (by simp)
  · rfl

theorem max_by_key_mem (key : String → String) :
    ∀ (l : List String) (x : String), max_by_key key x l ∈ x :: l := by
  intro l
  induction l with
  | nil => intro x; simp [max_by_key]
  | cons y ys ih =>
    intro x
    by_cases hc : str_lt (key x).data (key y).data = true
    · have h := ih y
      simp only [max_by_key, if_pos hc]
      simp only [List.mem_cons] at h ⊢
      tauto
    · have h := ih x
      simp only [max_by_key, if_neg hc]
      simp only [List.mem_cons] at h ⊢
      tauto

theorem max_by_key_not_lt (key : String → String) :
    ∀ (l : List String) (x g : String), g ∈ x :: l →
      str_lt (key (max_by_key key x l)).data (key g).data = false := by
  intro l
  induction l with
  | nil =>
    intro x g hg
    simp only [List.mem_cons, List.not_mem_nil, or_false] at hg
    subst hg
    simp [max_by_key, str_lt_irrefl]
  | cons y ys ih =>
    intro x g hg
    simp only [List.mem_cons] at hg
    by_cases hc : str_lt (key x).data (key y).data = true
    · simp only [max_by_key, if_pos hc]
      rcases hg with hgx | hgy | hgys
      · rw [hgx]
        cases hres : str_lt (key (max_by_key key y ys)).data (key x).data
        · rfl
        · exfalso
          have hy := ih y y (List.mem_cons_self y ys)
          have htr := str_lt_trans _ _ _ hres hc
          rw [htr] at hy
          exact absurd hy (by simp)
      · rw [hgy]
        exact ih y y (List.mem_cons_self y ys)
      · exact ih y g (List.mem_cons_of_mem y hgys)
    · have hc' : str_lt (key x).data (key y).data = false := by
        revert hc; cases str_lt (key x).data (key y).data <;> simp
      simp only [max_by_key, if_neg hc]
      rcases hg with hgx | hgy | hgys
      · rw [hgx]
        exact ih x x (List.mem_cons_self x ys)
      · rw [hgy]
        cases hres : str_lt (key (max_by_key key x ys)).data (key y).data
        · rfl
        · exfalso
          have hresx := str_lt_of_lt_of_not_lt _ _ _ hres hc'
          have hx := ih x x (List.mem_cons_self x ys)
          rw [hresx] at hx
          exact absurd hx (by simp)
      · exact ih x g (List.mem_cons_of_mem x hgys)

theorem str_lt_zeros :
    ∀ ds : List Char, (∀ c ∈ ds, ¬ c < '0') →
      ∀ t m : List Char, str_lt t m = false →
        str_lt (ds ++ t) (List.replicate ds.length '0' ++ m) = false := by
  intro ds
  induction ds with
  | nil => intro _ t m htm; simpa using htm
  | cons c cs ih =>
    intro hds t m htm
    have hc : ¬ c < '0' := hds c (List.mem_cons_self c cs)
    have hcs : ∀ x ∈ cs, ¬ x < '0' := fun x hx => hds x (List.mem_cons_of_mem c hx)
    simp only [List.length_cons, List.replicate_succ, List.cons_append, str_lt]
    rw [if_neg hc]
    by_cases h0c : '0' < c
    · rw [if_pos h0c]
    · rw [if_neg h0c]
      exact ih hcs t m htm

theorem match_ts_at_shape {s : List Char} {t : String}
    (h : match_ts_at s = some t) :
    ∃ d8 d6 : List Char, t.data = d8 ++ '_' :: d6 ∧ d8.length = 8 ∧
      d6.length = 6 ∧ (∀ c ∈ d8, c.isDigit = true) ∧
      (∀ c ∈ d6, c.isDigit = true) := by
  unfold match_ts_at at h
  split at h
  · injection h with h'
    rename_i hcond
    refine ⟨(s.drop 15).take 8, (s.drop 24).take 6, ?_, hcond.2.1, hcond.2.2.2.2.1,
      ?_, ?_⟩
    · rw [← h']
    · exact fun c hc => List.all_eq_true.mp hcond.2.2.1 c hc
    · exact fun c hc => List.all_eq_true.mp hcond.2.2.2.2.2.1 c hc
  · exact absurd h (by simp)

theorem search_ts_shape :
    ∀ {s : List Char} {t : String}, search_ts s = some t →
      ∃ d8 d6 : List Char, t.data = d8 ++ '_' :: d6 ∧ d8.length = 8 ∧
        d6.length = 6 ∧ (∀ c ∈ d8, c.isDigit = true) ∧
        (∀ c ∈ d6, c.isDigit = true) := by
  intro s
  induction s with
  | nil => intro t h; simp [search_ts] at h
  | cons c rest ih =>
    intro t h
    simp only [search_ts] at h
    cases hm : match_ts_at (c :: rest) with
    | some t' =>
      rw [hm] at h
      injection h with h'
      exact h' ▸ match_ts_at_shape hm
    | none =>
      rw [hm] at h
      exact ih h

theorem string_data_eq : ∀ {a b : String}, a.data = b.data → a = b := by
  intro a b h
  cases a
  cases b
  cases h
  rfl

theorem extract_timestamp_min (s : String) :
    str_lt (extract_timestamp s).data ts_min.data = false := by
  cases hs : search_ts s.data with
  | none =>
    simp only [extract_timestamp, hs]
    exact str_lt_irrefl _
  | some t =>
    simp only [extract_timestamp, hs]
    obtain ⟨d8, d6, hdata, h8, h6, hd8, hd6⟩ := search_ts_shape hs
    rw [hdata]
    have hmin : ts_min.data
        = List.replicate 8 '0' ++ '_' :: List.replicate 6 '0' := by decide
    rw [hmin]
    have hz8 : ∀ c ∈ d8, ¬ c < '0' := by
      intro c hc
      have h := hd8 c hc
      simp [Char.isDigit] at h
      exact not_lt.mpr h.1
    have hz6 : ∀ c ∈ d6, ¬ c < '0' := by
      intro c hc
      have h := hd6 c hc
      simp [Char.isDigit] at h
      exact not_lt.mpr h.1
    have hinner : str_lt ('_' :: d6) ('_' :: List.replicate 6 '0') = false := by
      simp only [str_lt]
      rw [if_neg (lt_irrefl '_'), if_neg (lt_irrefl '_')]
      have hz := str_lt_zeros d6 hz6 [] [] rfl
      simpa [h6] using hz
    have hfin := str_lt_zeros d8 hz8 ('_' :: d6)
      ('_' :: List.replicate 6 '0') hinner
    simpa [h8] using hfin

/-- C8 counterexample: with two glob-matching files neither of which
parses as a timestamp, `max` returns the first, so a malformed file is
selected even though it is not the only candidate. -/
theorem C8_counterexample :
    find_latest_result_file
        (some ["ur_net_results_a.json", "ur_net_results_b.json"])
      = some "ur_net_results_a.json" ∧
    extract_timestamp "ur_net_results_a.json" = ts_min ∧
    extract_timestamp "ur_net_results_b.json" = ts_min ∧
    ("ur_net_results_a.json" : String) ≠ "ur_net_results_b.json" :=
  ⟨by decide, by decide, by decide, by decide⟩

/-- C8 (amended): the lookup returns none when the directory is absent or
no file matches the glob pattern; otherwise it returns a glob-matching
file whose extracted timestamp key is maximal (first such file on ties);
a file whose name does not parse is keyed by the minimum timestamp
`00000000_000000`, so it is selected only when every candidate's key is
that minimum (for example, when all candidates are malformed the first
one is returned, even if several exist). -/
theorem C8_latest_amended :
    (find_latest_result_file none = none) ∧
    (∀ files : List String, files.filter glob_match = [] →
        find_latest_result_file (some files) = none) ∧
    (∀ (files : List String) (f : String),
        find_latest_result_file (some files) = some f →
        f ∈ files.filter glob_match ∧
        ∀ g ∈ files.filter glob_match,
          str_lt (extract_timestamp f).data (extract_timestamp g).data
            = false) ∧
    (∀ (files : List String) (f : String),
        find_latest_result_file (some files) = some f →
        extract_timestamp f = ts_min →
        ∀ g ∈ files.filter glob_match, extract_timestamp g = ts_min) := by
  have main : ∀ (files : List String) (f : String),
      find_latest_result_file (some files) = some f →
      f ∈ files.filter glob_match ∧
      ∀ g ∈ files.filter glob_match,
        str_lt (extract_timestamp f).data (extract_timestamp g).data = false := by
    intro files f hf
    rcases hg : files.filter glob_match with _ | ⟨f0, fs⟩
    · simp only [find_latest_result_file, hg] at hf
      exact Option.noConfusion hf
    · simp only [find_latest_result_file, hg] at hf
      injection hf with hf'
      subst hf'
      exact ⟨max_by_key_mem extract_timestamp fs f0,
        fun g hgm => max_by_key_not_lt extract_timestamp fs f0 g hgm⟩
  refine ⟨rfl, ?_, main, ?_⟩
  · intro files hf
    simp [find_latest_result_file, hf]
  · intro files f hf hmin g hgm
    have hmax := (main files f hf).2 g hgm
    rw [hmin] at hmax
    have hub := extract_timestamp_min g
    exact string_data_eq (str_lt_antisymm_eq _ _ hub hmax)

/-- C8 witness: a single well-formed snapshot file is returned and is
maximal among the matches. -/
theorem C8_witness :
    "ur_net_results_20250101_000000.json"
        ∈ (["ur_net_results_20250101_000000.json"] : List String).filter
            glob_match ∧
    ∀ g ∈ (["ur_net_results_20250101_000000.json"] : List String).filter
        glob_match,
      str_lt (extract_timestamp "ur_net_results_20250101_000000.json").data
        (extract_timestamp g).data = false :=
  C8_latest_amended.2.2.1 ["ur_net_results_20250101_000000.json"]
    "ur_net_results_20250101_000000.json" (by decide)
